import Mathlib

/-!
# Verification of the stress-popup / counter-question generation pipeline

Shallow embedding of the constrained-generation pipeline of the repository
(`app/services/validators.py`, `app/services/popup_generator.py`,
`app/services/question_generator.py`) and proofs about it.

Python strings are modelled as Lean `String`s; Python `str.split()`,
`str.strip()`, `str.lower()` and the regular-expression checks of
`validators.py` are given explicit executable models below.  The generative
backend (`openai_client.chat_json`) is an external effect; each call is
modelled by an explicit outcome value describing what the call produced
(parsed content, a JSON parse failure, or a raised exception).  The
`while` loop of `_fallback_popups` is modelled with an explicit fuel
parameter: `none` means the loop did not finish within the given fuel, and
a result that is `none` for *every* fuel is a non-terminating run.

Two helper modules of the repository (`popup_schemas.py` with the `Popup`
pydantic model and `popup_validator.py` with `validate_popup_message`) are
not part of the sources; they are modelled from the spec where marked.
-/

/-! ## Python string primitives -/

/-- The whitespace characters recognised by Python's `str.split()` /
`str.strip()` for the ASCII range. -/
def isPySpace (c : Char) : Bool :=
  c = ' ' || c = '\t' || c = '\n' || c = '\r' || c = '\x0b' || c = '\x0c'

/-- Word characters of Python's `re` module `\b` boundaries, ASCII model
(`[a-zA-Z0-9_]`).  All banned phrases are ASCII, so this is faithful for
them. -/
def isWordChar (c : Char) : Bool := c.isAlphanum || c = '_'

/-- Accumulator worker for `splitWords`; `acc` holds the current word
reversed. -/
def splitWordsAux : List Char → List Char → List (List Char)
  | [], acc => if acc.isEmpty then [] else [acc.reverse]
  | c :: rest, acc =>
    if isPySpace c then
      if acc.isEmpty then splitWordsAux rest []
      else acc.reverse :: splitWordsAux rest []
    else splitWordsAux rest (c :: acc)

/-- Python `str.split()` with no separator: split on runs of whitespace,
dropping empty fields. -/
def splitWords (s : List Char) : List (List Char) := splitWordsAux s []

/-- Python `" ".join(words)`. -/
def joinWords : List (List Char) → List Char
  | [] => []
  | [w] => w
  | w :: ws => w ++ ' ' :: joinWords ws

/-- Python `" ".join(s.strip().split())`: whitespace normalisation used by
the validators (`strip` is redundant because `split()` already discards
edge whitespace). -/
def normalizeWs (s : List Char) : List Char := joinWords (splitWords s)

/-- `String`-level whitespace normalisation. -/
def normalizeWsStr (s : String) : String := String.mk (normalizeWs s.data)

/-- Python `str.strip()` (whitespace on both ends). -/
def pyStrip (s : List Char) : List Char :=
  ((s.dropWhile isPySpace).reverse.dropWhile isPySpace).reverse

/-- `String`-level `str.strip()`. -/
def pyStripStr (s : String) : String := String.mk (pyStrip s.data)

/-- Python `str.lower()` (ASCII model; characters outside the ASCII letters
are unchanged, as in CPython for the text these services handle). -/
def lowerStr (s : String) : String := String.mk (s.data.map Char.toLower)

/-- `String`-level Python `str.split()`. -/
def splitWordsStr (s : String) : List String := (splitWords s.data).map String.mk

/-- Python substring membership `pat in hay`. -/
def containsSubstr (hay pat : String) : Bool :=
  (List.range (hay.data.length + 1)).any fun i => List.isPrefixOf pat.data (hay.data.drop i)

/-- The literal `pat` occurs in `text` at index `i`. -/
def occursAt (pat text : List Char) (i : Nat) : Bool :=
  List.isPrefixOf pat (text.drop i)

/-- The literal `pat` occurs at `i` with a `\b` word boundary on both sides
(every banned phrase starts and ends with a word character, for which this
encoding of `\bpat\b` is exact). -/
def wordBoundedAt (text pat : List Char) (i : Nat) : Bool :=
  occursAt pat text i
    && (i == 0 || !isWordChar (text.getD (i - 1) ' '))
    && !isWordChar (text.getD (i + pat.length) ' ')

/-- `re.search` of a word-bounded literal: some position matches. -/
def containsWordBounded (text : List Char) (pat : String) : Bool :=
  (List.range text.length).any fun i => wordBoundedAt text pat.data i

/-! ## `validators.py` — `is_valid_question` -/

/-- The `_BANNED` regex list of `validators.py`.  Each regex is a
word-bounded literal or a small alternation of them; each inner list is the
set of literal alternatives of one regex (e.g. `\bcounsel(or|ing)\b`
becomes `counselor`, `counseling`). -/
def BANNED_PHRASES : List (List String) := [
  ["why"],
  ["therapy"],
  ["counselor", "counseling"],
  ["mental health"],
  ["diagnosis", "diagnose"],
  ["trauma"],
  ["depressed", "depression"],
  ["supportive", "support"],
  ["comforting", "comfort"],
  ["please"],
  ["thanks", "thank you"],
  ["kindly"],
  ["hope"],
  ["feel better"],
  ["you're not alone", "you are not alone"],
  ["i'm here for you", "i am here for you"],
  ["that sounds hard", "that sounds tough"],
  ["i understand"],
  ["care"],
  ["empathy", "empathize", "empathise"],
  ["gentle"],
  ["soft"]]

/-- Some `_BANNED` regex matches the (lowercased, normalised) text. -/
def bannedHit (lowered : List Char) : Bool :=
  BANNED_PHRASES.any fun group => group.any fun p => containsWordBounded lowered p

/-- The regex `,\s*(and|also)\s+` of `is_valid_question`: a comma, optional
whitespace, `and`/`also`, then at least one whitespace character. -/
def commaJoinHit (lowered : List Char) : Bool :=
  (List.range lowered.length).any fun i =>
    match lowered.drop i with
    | ',' :: rest =>
      let r := rest.dropWhile isPySpace
      (List.isPrefixOf "and".data r && isPySpace (r.getD 3 'x'))
        || (List.isPrefixOf "also".data r && isPySpace (r.getD 4 'x'))
    | _ => false

/-- The regex `\band\b.*\b(tell|share|explain|describe|mention)\b`:
a word-bounded `and` followed (at distance at least 3, i.e. after the
`and`) by a word-bounded instruction verb.  The normalised text contains
no newline, so `.` spanning is not an issue. -/
def andVerbHit (lowered : List Char) : Bool :=
  (List.range lowered.length).any fun i =>
    wordBoundedAt lowered "and".data i
      && (List.range lowered.length).any fun j =>
        decide (i + 3 ≤ j)
          && ["tell", "share", "explain", "describe", "mention"].any fun v =>
            wordBoundedAt lowered v.data j

/-- `List Char` version of `endswith("?")` on the normalised question. -/
def endsWithQM (q : List Char) : Bool := q.getLast? == some '?'

/-- `validators.is_valid_question`, translated clause by clause from
`app/services/validators.py`. -/
def is_valid_question (question : String) : Bool :=
  if question = "" then false
  else
    let q := normalizeWs question.data
    if !(q.count '?' == 1) || !endsWithQM q then false
    else if 24 < (splitWords q).length then false
    else
      let lowered := q.map Char.toLower
      if bannedHit lowered then false
      else if commaJoinHit lowered then false
      else if andVerbHit lowered then false
      else if q.contains ';' || q.contains '/' then false
      else true

/-- The spec's reference definition of question validity (spec section 4.2,
claim C4): after whitespace normalisation the string is non-empty, has
exactly one `?` which is the final character, at most 24 words, no banned
phrase, no compound join, and neither `;` nor `/`. -/
def specValidQuestion (question : String) : Bool :=
  let q := normalizeWs question.data
  let lowered := q.map Char.toLower
  !q.isEmpty && q.count '?' == 1 && endsWithQM q
    && decide ((splitWords q).length ≤ 24)
    && !bannedHit lowered && !commaJoinHit lowered && !andVerbHit lowered
    && !(q.contains ';') && !(q.contains '/')

/-! ## C4 lemmas: counting is preserved by whitespace normalisation -/

lemma endsWithQM_isEmpty (q : List Char) (h : endsWithQM q = true) : q.isEmpty = false := by
  cases q with
  | nil => simp [endsWithQM] at h
  | cons a l => rfl

lemma joinWords_count (c : Char) (hc : c ≠ ' ') :
    ∀ ws : List (List Char), (joinWords ws).count c = (ws.map (List.count c)).sum := by
  intro ws
  induction ws with
  | nil => rfl
  | cons w ws ih =>
    cases ws with
    | nil => simp [joinWords]
    | cons w2 ws2 =>
      have hne : ¬ (c = ' ') := hc
      simp [joinWords, List.count_append, List.count_cons, hne] at ih ⊢
      omega

lemma splitWordsAux_count (c : Char) (hc : isPySpace c = false) :
    ∀ (l acc : List Char),
      ((splitWordsAux l acc).map (List.count c)).sum = l.count c + acc.count c := by
  intro l
  induction l with
  | nil =>
    intro acc
    by_cases ha : acc.isEmpty
    · have : acc = [] := by cases acc with | nil => rfl | cons a l => simp at ha
      simp [splitWordsAux, ha, this]
    · simp [splitWordsAux, ha, List.count_reverse]
  | cons d rest ih =>
    intro acc
    by_cases hd : isPySpace d
    · have hdc : ¬ (c = d) := fun h => by rw [h, hd] at hc; exact Bool.noConfusion hc
      by_cases ha : acc.isEmpty
      · have hacc : acc = [] := by cases acc with | nil => rfl | cons a l => simp at ha
        simp [splitWordsAux, hd, ha, hacc, ih [], List.count_cons, hdc]
      · simp [splitWordsAux, hd, ha, ih [], List.count_cons, List.count_reverse, hdc]
        omega
    · simp [splitWordsAux, hd, ih (d :: acc), List.count_cons]
      omega

lemma normalizeWs_count (c : Char) (hc : isPySpace c = false) (l : List Char) :
    (normalizeWs l).count c = l.count c := by
  have hsp : c ≠ ' ' := fun h => by rw [h] at hc; exact Bool.noConfusion hc
  unfold normalizeWs splitWords
  rw [joinWords_count c hsp, splitWordsAux_count c hc]
  simp

lemma valid_core (q : List Char) :
    (if !(q.count '?' == 1) || !endsWithQM q then false
     else if 24 < (splitWords q).length then false
     else
       let lowered := q.map Char.toLower
       if bannedHit lowered then false
       else if commaJoinHit lowered then false
       else if andVerbHit lowered then false
       else if q.contains ';' || q.contains '/' then false
       else true)
    = (!q.isEmpty && q.count '?' == 1 && endsWithQM q
        && decide ((splitWords q).length ≤ 24)
        && !bannedHit (q.map Char.toLower) && !commaJoinHit (q.map Char.toLower)
        && !andVerbHit (q.map Char.toLower)
        && !(q.contains ';') && !(q.contains '/')) := by
  by_cases hc : q.count '?' == 1
  · by_cases he : endsWithQM q
    · have hne := endsWithQM_isEmpty q he
      by_cases h24 : 24 < (splitWords q).length
      · simp [hc, he, hne, h24, Nat.not_le_of_lt h24]
      · by_cases hb : bannedHit (q.map Char.toLower)
        · simp [hc, he, hne, h24, hb]
        · by_cases hcj : commaJoinHit (q.map Char.toLower)
          · simp [hc, he, hne, h24, hb, hcj]
          · by_cases hav : andVerbHit (q.map Char.toLower)
            · simp [hc, he, hne, h24, hb, hcj, hav]
            · by_cases hsc : q.contains ';'
              · have hsc' : ';' ∈ q := by simpa using hsc
                simp [hc, he, hne, h24, Nat.not_lt.mp h24, hb, hcj, hav, hsc']
              · by_cases hsl : q.contains '/'
                · have hsl' : '/' ∈ q := by simpa using hsl
                  simp [hc, he, hne, h24, Nat.not_lt.mp h24, hb, hcj, hav, hsc, hsl']
                · simp [hc, he, hne, Nat.not_lt.mp h24, h24, hb, hcj, hav, hsc, hsl]
    · simp [hc, he]
  · simp [hc]

/-- C4 (confirmed).  `is_valid_question` accepts exactly the strings the
spec's reference definition accepts: after whitespace normalisation the
string is non-empty, contains exactly one `?` which is the final character,
has at most 24 words, matches no banned-phrase regex, has no compound join,
and contains neither `;` nor `/`.  In particular every string containing
two (or more) `?` characters is rejected. -/
theorem is_valid_question_equals_spec :
    (∀ s : String, is_valid_question s = specValidQuestion s)
    ∧ (∀ s : String, 2 ≤ s.data.count '?' → is_valid_question s = false) := by
  have core : ∀ s : String, is_valid_question s = specValidQuestion s := by
    intro s
    by_cases hs : s = ""
    · rw [hs]; rfl
    · show is_valid_question s = specValidQuestion s
      unfold is_valid_question specValidQuestion
      rw [if_neg hs]
      exact valid_core (normalizeWs s.data)
  refine ⟨core, ?_⟩
  intro s h2
  rw [core s]
  unfold specValidQuestion
  have hq : (normalizeWs s.data).count '?' = s.data.count '?' :=
    normalizeWs_count '?' (by decide) s.data
  have hne : ¬ ((normalizeWs s.data).count '?' == 1) := by
    rw [hq]
    simp only [beq_iff_eq]
    omega
  simp [hne]

/-! ## Profile model and user-word extraction (`popup_generator.py`) -/

/-- One entry of the `__clarifiers__` list: the code accepts either a dict
with an `answer` field or a bare string. -/
inductive ClarifierItem where
  | dictItem (answer : Option String)
  | strItem (s : String)
deriving DecidableEq

/-- The `stress_profile` dict as the popup pipeline reads it: the reserved
keys `__raw_text__` and `__clarifiers__` (absent = `none`), and the names
of any other top-level keys (profile sections), which only feed the prompt
payload. -/
structure StressProfile where
  raw_text : Option String
  clarifiers : Option (List ClarifierItem)
  sections : List String
deriving DecidableEq

/-- Python truthiness of the profile dict: non-empty iff it has a key. -/
def StressProfile.isTruthy (p : StressProfile) : Bool :=
  p.raw_text.isSome || p.clarifiers.isSome || !p.sections.isEmpty

/-- `_extract_user_words`: the raw initial text (if truthy) plus every
clarifier answer whose stripped text is non-empty (appended unstripped,
as in the source). -/
def extract_user_words (p : StressProfile) : List String :=
  (match p.raw_text with
    | some raw => if raw ≠ "" then [raw] else []
    | none => []) ++
  (p.clarifiers.getD []).filterMap fun item =>
    match item with
    | .dictItem ans =>
      let a := ans.getD ""
      if pyStripStr a ≠ "" then some a else none
    | .strItem s => if pyStripStr s ≠ "" then some s else none

/-! ## Lexical analyzer and overlap validator (modelled from the spec) -/

/-- Modelled from the spec: the claim-word vocabulary of the
LexicalAnalyzer (spec section 4.1); the analyzer lives in
`popup_validator.py`, which is not under `src/`. -/
def CLAIM_WORDS : List String :=
  ["hate", "cant", "unable", "impossible", "no", "never", "always",
   "distracted", "scrolling", "gaming", "reels", "youtube", "tired",
   "burnout", "burnt", "lazy", "dumb", "stupid", "bad", "pressure",
   "anxious", "anxiety", "panic", "scared", "fear", "stress", "stressed",
   "alone", "lonely", "overwhelmed", "busy", "avoid", "avoidance"]

/-- Modelled from the spec: the stop-word set of the LexicalAnalyzer
(spec section 4.1). -/
def STOPWORDS : List String :=
  ["how", "what", "when", "where", "why", "many", "much", "often", "time",
   "hours", "do", "you", "your", "feel", "this", "that", "there", "here",
   "them", "they", "with", "from", "have", "has", "had"]

/-- Worker for `dedupKeepFirst`: drop elements already emitted. -/
def dedupKeepFirstAux : List String → List String → List String
  | [], _emitted => []
  | w :: rest, emitted =>
    if emitted.contains w then dedupKeepFirstAux rest emitted
    else w :: dedupKeepFirstAux rest (w :: emitted)

/-- Keep the first occurrence of each element, preserving order. -/
def dedupKeepFirst (l : List String) : List String := dedupKeepFirstAux l []

/-- Modelled from the spec: lowercase, tokenize on whitespace, strip
non-alphanumeric characters from each token, drop tokens that become
empty (spec section 4.1). -/
def tokenizeClean (text : String) : List String :=
  ((splitWordsStr (lowerStr text)).map fun w =>
    String.mk (w.data.filter Char.isAlphanum)).filter fun w => w ≠ ""

/-- Modelled from the spec: `extractAnchors` — tokens that are at least 4
characters long or claim words, excluding stop words, first-occurrence
order, deduplicated (spec section 4.1). -/
def extractAnchors (text : String) : List String :=
  dedupKeepFirst ((tokenizeClean text).filter fun w =>
    (decide (4 ≤ w.length) || CLAIM_WORDS.contains w) && !(STOPWORDS.contains w))

/-- Modelled from the spec: `extractClaims` — the tokens that are claim
words, first-occurrence order, deduplicated (spec section 4.1). -/
def extractClaims (text : String) : List String :=
  dedupKeepFirst ((tokenizeClean text).filter fun w => CLAIM_WORDS.contains w)

/-- Modelled from the spec: `requiresOverlap(candidateText, userText)`
(spec section 4.3).  Empty anchors accept unconditionally; with at least 2
anchors, at least 2 must occur as substrings of the lowercased candidate;
additionally a non-empty claim set requires at least one claim word in the
(lowercased) candidate.  The spec leaves the one-anchor case open; this
model imposes no anchor requirement there (the claim clause still
applies). -/
def requiresOverlap (candidate userText : String) : Bool :=
  let anchors := extractAnchors userText
  if anchors.isEmpty then true
  else
    let cl := lowerStr candidate
    let matched := anchors.filter fun a => containsSubstr cl a
    let anchorOk := if 2 ≤ anchors.length then decide (2 ≤ matched.length) else true
    let claims := extractClaims userText
    let claimOk := if claims.isEmpty then true else claims.any fun c => containsSubstr cl c
    anchorOk && claimOk

/-- Modelled from the spec: `popup_validator.validate_popup_message`
(`popup_validator.py` is not under `src/`): the lexical-overlap check of
spec section 4.3 applied to the message against the user's own words
(raw text plus clarifier answers, spec section 4.4). -/
def validate_popup_message (message : String) (profile : StressProfile) : Bool :=
  requiresOverlap message (String.mk (joinWords ((extract_user_words profile).map String.data)))

/-! ## Popup pipeline data (`popup_generator.py`) -/

/-- A validated popup as returned by `generate_popups`. -/
structure Popup where
  type : String
  message : String
  ttl : Int
deriving DecidableEq

/-- The dedup key of a produced popup: its exact `(type, message)` pair
(this is what both call sites of the code put in `seen`). -/
def pkey (p : Popup) : String × String := (p.type, p.message)

/-- A raw candidate from the parsed backend JSON: the `type`, `message`
and `ttl` fields, each possibly absent.  (Non-dict entries are skipped by
the code before any field access and are not modelled; a field of the
wrong runtime type would raise and abort the attempt, outside this
model.) -/
structure RawPopup where
  type : Option String
  message : Option String
  ttl : Option Int
deriving DecidableEq

/-- Modelled from the spec: the `type` whitelist the `Popup` pydantic
schema (`popup_schemas.py`, not under `src/`) enforces — the allowed-type
vocabulary of the active prompt (spec section 3, prompt `ALLOWED TYPES`). -/
def ALLOWED_POPUP_TYPES : List String :=
  ["distraction", "self_doubt", "panic", "pressure", "comparison",
   "guilt", "fear", "system_warning"]

/-- `FALLBACK_TEMPLATES` of `popup_generator.py`, as an association list
in the dict's insertion order. -/
def FALLBACK_TEMPLATES : List (String × String) := [
  ("pressure", "They're preparing. You're panicking."),
  ("self_doubt", "You know you're not ready. So do they."),
  ("panic", "Clock's ticking. You're not."),
  ("motivation", "Dreams don't wait. Neither do results."),
  ("distraction", "Phone won. You lost. Again.")]

/-- Association-list lookup (Python `dict.get`). -/
def assocLookup {α β : Type} [DecidableEq α] : List (α × β) → α → Option β
  | [], _ => none
  | (k, v) :: rest, key => if k = key then some v else assocLookup rest key

/-- `FALLBACK_TEMPLATES.get`. -/
def lookupTemplate (t : String) : Option String := assocLookup FALLBACK_TEMPLATES t

/-- `_fallback_sequence`: the signals that name templates, in order and
deduplicated, followed by the fixed defaults not already present. -/
def fallback_sequence (signals : List String) : List String :=
  let step := fun (ordered : List String) (s : String) =>
    if (lookupTemplate s).isSome && !(ordered.contains s) then ordered ++ [s] else ordered
  let fromSignals := signals.foldl step []
  ["pressure", "self_doubt", "panic", "motivation", "distraction"].foldl step fromSignals

/-- The `while` loop of `_fallback_popups`, with explicit fuel.  One fuel
unit is one loop iteration; `none` means the loop did not finish within
the fuel.  Faithful to the source: a skipped key (`continue`) advances
`idx` but makes no progress towards `count`, and there is no exhaustion
check. -/
def fallback_loop (count : Nat) (seq : List String) :
    Nat → Nat → List (String × String) → List Popup → Option (List Popup)
  | 0, _idx, _seen, created =>
    if count ≤ created.length then some created else none
  | fuel + 1, idx, seen, created =>
    if count ≤ created.length then some created
    else
      let popup_type := seq.getD (idx % seq.length) ""
      match lookupTemplate popup_type with
      | none => fallback_loop count seq fuel (idx + 1) seen created
      | some message =>
        if (popup_type, pyStripStr message) ∈ seen then
          fallback_loop count seq fuel (idx + 1) seen created
        else
          fallback_loop count seq fuel (idx + 1)
            ((popup_type, pyStripStr message) :: seen)
            (created ++ [⟨popup_type, message, 8000⟩])

/-- `_fallback_popups(count, seen, emotion_signals)`, fuelled. -/
def fallback_popups (fuel count : Nat) (seen : List (String × String))
    (emotion_signals : List String) : Option (List Popup) :=
  let sequence := fallback_sequence emotion_signals
  if sequence.isEmpty then some []
  else fallback_loop count sequence fuel 0 seen []

/-- `_ensure_minimum_popups(popups, seen, emotion_signals, minimum, limit)`,
fuelled through the fallback filler. -/
def ensure_minimum_popups (fuel : Nat) (popups : List Popup)
    (seen : List (String × String)) (emotion_signals : List String)
    (minimum limit : Nat) : Option (List Popup) :=
  if popups.length < minimum then
    match fallback_popups fuel (minimum - popups.length) seen emotion_signals with
    | none => none
    | some created => some ((popups ++ created).take limit)
  else some (popups.take limit)

/-- TTL clamping of `generate_popups`: `max(6000, min(10000, ttl))`. -/
def clampTtl (t : Int) : Int := max 6000 (min 10000 t)

/-- The per-candidate validation loop of `generate_popups`: strip the
message, enforce single-line and the 5–12 word bound, deduplicate by
lowercased message (the dedup insert happens before schema validation, as
in the source), clamp the TTL, check the schema type whitelist and the
overlap validator. -/
def filter_valid_popups (profile : StressProfile) :
    List RawPopup → List String → List Popup
  | [], _seen => []
  | popup :: rest, seen =>
    let msg := pyStripStr (popup.message.getD "")
    if msg.data.contains '\n' then filter_valid_popups profile rest seen
    else if !(5 ≤ (splitWordsStr msg).length && (splitWordsStr msg).length ≤ 12) then
      filter_valid_popups profile rest seen
    else if lowerStr msg ∈ seen then filter_valid_popups profile rest seen
    else
      let seen' := lowerStr msg :: seen
      let ttl := clampTtl (popup.ttl.getD 8000)
      match popup.type with
      | none => filter_valid_popups profile rest seen'
      | some t =>
        if t ∈ ALLOWED_POPUP_TYPES then
          if validate_popup_message msg profile then
            ⟨t, msg, ttl⟩ :: filter_valid_popups profile rest seen'
          else filter_valid_popups profile rest seen'
        else filter_valid_popups profile rest seen'

/-- What one backend attempt of `generate_popups` produced:
`content popups` models a `chat_json` reply whose text parsed as JSON with
the given `popups` list (`data.get("popups") or []` already applied);
`malformed` models `json.loads` raising (`except (JSONDecodeError,
ValidationError)` — retried); `backendError b` models `chat_json` itself
raising (`except Exception` — the code breaks out regardless of whether
the error is transient, `b` records the flavour the code never
inspects). -/
inductive AttemptOutcome where
  | content (popups : List RawPopup)
  | malformed
  | backendError (transient : Bool)
deriving DecidableEq

/-- Whether an outcome is a raised backend error. -/
def isBackendErr : AttemptOutcome → Bool
  | .backendError _ => true
  | _ => false

/-- Result of running one attempt body: accepted popups, retry (parse
failure or empty valid set), or abort (`break` on a raised exception). -/
inductive AttemptResult where
  | accepted (valid : List Popup)
  | retry
  | aborted
deriving DecidableEq

/-- One iteration of the attempt loop of `generate_popups`. -/
def attemptPopups (profile : StressProfile) : AttemptOutcome → AttemptResult
  | .content popups =>
    let valid := filter_valid_popups profile popups []
    if valid.isEmpty then .retry else .accepted valid
  | .malformed => .retry
  | .backendError _ => .aborted

/-- The observable outcome of one `generate_popups` invocation: how many
backend calls were made, and the returned list (`none` = the fallback
filler never terminated, i.e. the call hangs). -/
structure GenOutcome where
  calls : Nat
  result : Option (List Popup)
deriving DecidableEq

/-- The final-fallback line of `generate_popups`:
`_fallback_popups(40, set(), emotion_signals or [])[:50]`. -/
def final_fallback (fuel : Nat) (emotion_signals : List String) : Option (List Popup) :=
  match fallback_popups fuel 40 [] emotion_signals with
  | none => none
  | some l => some (l.take 50)

/-- `generate_popups(stress_profile, emotion_signals)`, with the two
backend attempts abstracted as outcome values and the fallback loop
fuelled. -/
def generate_popups (fuel : Nat) (stress_profile : StressProfile)
    (emotion_signals : List String) (o1 o2 : AttemptOutcome) : GenOutcome :=
  if !stress_profile.isTruthy then ⟨0, some []⟩
  else
    match attemptPopups stress_profile o1 with
    | .accepted valid =>
      ⟨1, ensure_minimum_popups fuel valid (valid.map pkey) emotion_signals 40 50⟩
    | .aborted => ⟨1, final_fallback fuel emotion_signals⟩
    | .retry =>
      match attemptPopups stress_profile o2 with
      | .accepted valid =>
        ⟨2, ensure_minimum_popups fuel valid (valid.map pkey) emotion_signals 40 50⟩
      | .aborted => ⟨2, final_fallback fuel emotion_signals⟩
      | .retry => ⟨2, final_fallback fuel emotion_signals⟩

/-! ## C1/C2: the fallback filler loops forever once every key is seen -/

lemma fallback_loop_stuck (count : Nat) (seq : List String) (hseq : seq ≠ [])
    (seen : List (String × String))
    (hstuck : (seq.all fun t =>
        match lookupTemplate t with
        | none => true
        | some m => decide ((t, pyStripStr m) ∈ seen)) = true) :
    ∀ (fuel idx : Nat) (created : List Popup), created.length < count →
      fallback_loop count seq fuel idx seen created = none := by
  intro fuel
  induction fuel with
  | zero =>
    intro idx created hlt
    simp [fallback_loop, Nat.not_le.mpr hlt]
  | succ n ih =>
    intro idx created hlt
    have hmem : seq.getD (idx % seq.length) "" ∈ seq := by
      have hpos : 0 < seq.length := List.length_pos.mpr hseq
      have hidx : idx % seq.length < seq.length := Nat.mod_lt _ hpos
      rw [List.getD_eq_get?, List.get?_eq_get hidx]
      exact List.get_mem _ _ _
    have hstuckt := (List.all_eq_true.mp hstuck) _ hmem
    rw [fallback_loop, if_neg (Nat.not_le.mpr hlt)]
    cases hlook : lookupTemplate (seq.getD (idx % seq.length) "") with
    | none =>
      simp only [hlook]
      exact ih (idx + 1) created hlt
    | some m =>
      have hin : (seq.getD (idx % seq.length) "", pyStripStr m) ∈ seen := by
        rw [hlook] at hstuckt
        exact of_decide_eq_true hstuckt
      simp only [hlook, if_pos hin]
      exact ih (idx + 1) created hlt

/-- The final-fallback call `_fallback_popups(40, set(), [])` never
finishes: after the five distinct templates are emitted, every further
iteration hits `continue` and the loop makes no progress towards 40. -/
lemma fallback_popups_forty_empty_none : ∀ fuel : Nat, fallback_popups fuel 40 [] [] = none := by
  intro fuel
  match fuel with
  | 0 => rfl
  | 1 => rfl
  | 2 => rfl
  | 3 => rfl
  | 4 => rfl
  | (n + 5) =>
    have h : fallback_popups (n + 5) 40 [] [] =
        fallback_loop 40 ["pressure", "self_doubt", "panic", "motivation", "distraction"] n 5
          [("distraction", "Phone won. You lost. Again."),
           ("motivation", "Dreams don't wait. Neither do results."),
           ("panic", "Clock's ticking. You're not."),
           ("self_doubt", "You know you're not ready. So do they."),
           ("pressure", "They're preparing. You're panicking.")]
          [⟨"pressure", "They're preparing. You're panicking.", 8000⟩,
           ⟨"self_doubt", "You know you're not ready. So do they.", 8000⟩,
           ⟨"panic", "Clock's ticking. You're not.", 8000⟩,
           ⟨"motivation", "Dreams don't wait. Neither do results.", 8000⟩,
           ⟨"distraction", "Phone won. You lost. Again.", 8000⟩] := rfl
    rw [h]
    exact fallback_loop_stuck 40 _ (by decide) _ (by decide) n 5 _ (by decide)

/-- C1 (code_bug).  The claim says `_fallback_popups` terminates on every
input, stopping when every template key is exhausted.  The code has no
such stop: at the failing input `count = 40`, `seen = ∅`,
`emotion_signals = []` (exactly the arguments of the final-fallback call
in `generate_popups`) the loop runs forever — in the fuelled model, no
amount of fuel makes it return. -/
theorem fallback_popups_no_exhaustion_stop :
    ∀ fuel : Nat, fallback_popups fuel 40 [] [] = none :=
  fallback_popups_forty_empty_none

/-- A non-empty profile (it has a `distractions` section and no verbatim
user text), used for concrete runs. -/
def profile_distractions : StressProfile := ⟨none, none, ["distractions"]⟩

/-- C2 (code_bug).  The claim says `generate_popups` returns between
`min(minimum, #templates)` and `limit` popups for every backend behaviour,
including malformed output on both attempts.  At that very behaviour the
code never returns at all: both attempts are parse failures, and the final
fallback call `_fallback_popups(40, set(), [])` diverges, so no list is
produced for any fuel (the two backend calls are made first). -/
theorem generate_popups_hangs_on_double_malformed :
    ∀ fuel : Nat,
      generate_popups fuel profile_distractions [] .malformed .malformed =
        ⟨2, none⟩ := by
  intro fuel
  show (⟨2, final_fallback fuel []⟩ : GenOutcome) = ⟨2, none⟩
  unfold final_fallback
  rw [fallback_popups_forty_empty_none fuel]

/-! ## Invariants of the candidate filter and the fallback filler -/

lemma clampTtl_bounds (t : Int) : 6000 ≤ clampTtl t ∧ clampTtl t ≤ 10000 := by
  unfold clampTtl
  constructor
  · exact le_max_left _ _
  · apply max_le
    · norm_num
    · exact min_le_left _ _

lemma assocLookup_mem {α β : Type} [DecidableEq α] :
    ∀ (l : List (α × β)) (k : α) (v : β), assocLookup l k = some v → v ∈ l.map Prod.snd := by
  intro l
  induction l with
  | nil => intro k v h; exact absurd h (by simp [assocLookup])
  | cons kv rest ih =>
    intro k v h
    obtain ⟨k1, v1⟩ := kv
    rw [assocLookup] at h
    split at h
    · injection h with h
      simp [h]
    · simpa using Or.inr (List.mem_map.mp (ih k v h) |>.imp fun x hx => hx)

lemma lookupTemplate_stripped (t m : String) (h : lookupTemplate t = some m) :
    pyStripStr m = m := by
  have hmem := assocLookup_mem _ _ _ h
  fin_cases hmem <;> rfl

lemma filter_valid_popups_ttl (profile : StressProfile) :
    ∀ (ps : List RawPopup) (seen : List String) (p : Popup),
      p ∈ filter_valid_popups profile ps seen → 6000 ≤ p.ttl ∧ p.ttl ≤ 10000 := by
  intro ps
  induction ps with
  | nil => intro seen p hp; exact absurd hp (by simp [filter_valid_popups])
  | cons popup rest ih =>
    intro seen p hp
    rw [filter_valid_popups] at hp
    dsimp only at hp
    split at hp
    · exact ih _ _ hp
    · split at hp
      · exact ih _ _ hp
      · split at hp
        · exact ih _ _ hp
        · split at hp
          · exact ih _ _ hp
          · split at hp
            · split at hp
              · rcases List.mem_cons.mp hp with rfl | hp'
                · exact clampTtl_bounds _
                · exact ih _ _ hp'
              · exact ih _ _ hp
            · exact ih _ _ hp

lemma filter_valid_popups_nodup (profile : StressProfile) :
    ∀ (ps : List RawPopup) (seen : List String),
      ((filter_valid_popups profile ps seen).map fun p => lowerStr p.message).Nodup
      ∧ ∀ p ∈ filter_valid_popups profile ps seen, lowerStr p.message ∉ seen := by
  intro ps
  induction ps with
  | nil => intro seen; simp [filter_valid_popups]
  | cons popup rest ih =>
    intro seen
    rw [filter_valid_popups]
    dsimp only
    split
    · exact ih seen
    · split
      · exact ih seen
      · split
        next hseen => exact ih seen
        next hseen =>
          have hstep : ∀ s : List String,
              (∀ p ∈ filter_valid_popups profile rest
                  (lowerStr (pyStripStr (popup.message.getD "")) :: seen),
                lowerStr p.message ∉ seen) := by
            intro _ p hp hmem
            exact (ih _).2 p hp (List.mem_cons_of_mem _ hmem)
          split
          · exact ⟨(ih _).1, hstep []⟩
          · split
            · split
              · constructor
                · refine List.nodup_cons.mpr ⟨?_, (ih _).1⟩
                  intro hmem
                  rcases List.mem_map.mp hmem with ⟨p, hp, hpe⟩
                  exact (ih _).2 p hp (by rw [hpe]; exact List.mem_cons_self _ _)
                · intro p hp
                  rcases List.mem_cons.mp hp with rfl | hp'
                  · exact hseen
                  · exact hstep [] p hp'
              · exact ⟨(ih _).1, hstep []⟩
            · exact ⟨(ih _).1, hstep []⟩

lemma fallback_loop_inv (count : Nat) (seq : List String) :
    ∀ (fuel idx : Nat) (seen : List (String × String)) (created r : List Popup),
      fallback_loop count seq fuel idx seen created = some r →
      ∃ extra, r = created ++ extra
        ∧ (extra.map pkey).Nodup
        ∧ (∀ k ∈ extra.map pkey, k ∉ seen)
        ∧ (∀ p ∈ extra, p.ttl = 8000) := by
  intro fuel
  induction fuel with
  | zero =>
    intro idx seen created r h
    rw [fallback_loop] at h
    split at h
    · injection h with h
      exact ⟨[], by simp [h], by simp, by simp, by simp⟩
    · exact absurd h (by simp)
  | succ n ih =>
    intro idx seen created r h
    rw [fallback_loop] at h
    split at h
    · injection h with h
      exact ⟨[], by simp [h], by simp, by simp, by simp⟩
    · dsimp only at h
      cases hlook : lookupTemplate (seq.getD (idx % seq.length) "") with
      | none =>
        rw [hlook] at h
        exact ih _ _ _ _ h
      | some m =>
        have hstrip := lookupTemplate_stripped _ _ hlook
        rw [hlook] at h
        dsimp only at h
        have hkey : pkey ⟨seq.getD (idx % seq.length) "", m, 8000⟩
            = (seq.getD (idx % seq.length) "", pyStripStr m) := by
          simp [pkey, hstrip]
        by_cases hin : (seq.getD (idx % seq.length) "", pyStripStr m) ∈ seen
        · rw [if_pos hin] at h
          exact ih _ _ _ _ h
        · rw [if_neg hin] at h
          obtain ⟨extra, hre, hnd, hnm, httl⟩ := ih _ _ _ _ h
          refine ⟨⟨seq.getD (idx % seq.length) "", m, 8000⟩ :: extra, ?_, ?_, ?_, ?_⟩
          · rw [hre]; simp
          · refine List.nodup_cons.mpr ⟨?_, hnd⟩
            intro hmem
            exact hnm _ hmem (by rw [hkey]; exact List.mem_cons_self _ _)
          · intro k hk
            rw [List.map_cons, List.mem_cons] at hk
            rcases hk with rfl | hk'
            · rw [hkey]; exact hin
            · exact fun hs => hnm k hk' (List.mem_cons_of_mem _ hs)
          · intro p hp
            rcases List.mem_cons.mp hp with rfl | hp'
            · rfl
            · exact httl p hp'

lemma fallback_popups_inv (fuel count : Nat) (seen : List (String × String))
    (sig : List String) (r : List Popup)
    (h : fallback_popups fuel count seen sig = some r) :
    (r.map pkey).Nodup ∧ (∀ k ∈ r.map pkey, k ∉ seen) ∧ ∀ p ∈ r, p.ttl = 8000 := by
  unfold fallback_popups at h
  dsimp only at h
  by_cases hs : (fallback_sequence sig).isEmpty
  · rw [if_pos hs] at h
    injection h with h
    subst h
    simp
  · rw [if_neg hs] at h
    obtain ⟨extra, hre, hnd, hnm, httl⟩ := fallback_loop_inv _ _ _ _ _ _ _ h
    rw [hre]
    simp only [List.nil_append]
    exact ⟨hnd, hnm, httl⟩

lemma ensure_minimum_popups_inv (fuel : Nat) (popups : List Popup) (sig : List String)
    (minimum limit : Nat) (l : List Popup)
    (hnd : (popups.map pkey).Nodup)
    (h : ensure_minimum_popups fuel popups (popups.map pkey) sig minimum limit = some l) :
    (l.map pkey).Nodup ∧ ∀ p ∈ l, p ∈ popups ∨ p.ttl = 8000 := by
  unfold ensure_minimum_popups at h
  by_cases hlen : popups.length < minimum
  · rw [if_pos hlen] at h
    cases hfb : fallback_popups fuel (minimum - popups.length) (popups.map pkey) sig with
    | none => rw [hfb] at h; exact absurd h (by simp)
    | some created =>
      rw [hfb] at h
      injection h with h
      subst h
      obtain ⟨hcnd, hcnm, hcttl⟩ := fallback_popups_inv _ _ _ _ _ hfb
      constructor
      · have happ : ((popups ++ created).map pkey).Nodup := by
          rw [List.map_append]
          exact hnd.append hcnd fun k hk1 hk2 => hcnm k hk2 hk1
        rw [List.map_take]
        exact happ.sublist (List.take_sublist _ _)
      · intro p hp
        rcases List.mem_append.mp (List.take_subset _ _ hp) with h1 | h2
        · exact Or.inl h1
        · exact Or.inr (hcttl p h2)
  · rw [if_neg hlen] at h
    injection h with h
    subst h
    constructor
    · rw [List.map_take]
      exact hnd.sublist (List.take_sublist _ _)
    · intro p hp
      exact Or.inl (List.take_subset _ _ hp)

lemma attemptPopups_accepted (prof : StressProfile) (o : AttemptOutcome) (v : List Popup)
    (h : attemptPopups prof o = .accepted v) : ∃ ps, v = filter_valid_popups prof ps [] := by
  cases o with
  | content ps =>
    refine ⟨ps, ?_⟩
    unfold attemptPopups at h
    dsimp only at h
    split at h
    · exact absurd h (by simp)
    · injection h with h
      exact h.symm
  | malformed => exact absurd h (by simp [attemptPopups])
  | backendError b => exact absurd h (by simp [attemptPopups])

/-- Every list that `generate_popups` actually returns comes from one of
three places: the empty-profile early return, the quota-ensured backend
path, or the final fallback. -/
lemma generate_popups_result_cases (fuel : Nat) (prof : StressProfile) (sig : List String)
    (o1 o2 : AttemptOutcome) (l : List Popup)
    (h : (generate_popups fuel prof sig o1 o2).result = some l) :
    l = []
    ∨ (∃ ps, ensure_minimum_popups fuel (filter_valid_popups prof ps [])
        ((filter_valid_popups prof ps []).map pkey) sig 40 50 = some l)
    ∨ final_fallback fuel sig = some l := by
  unfold generate_popups at h
  by_cases ht : prof.isTruthy
  · rw [ht] at h
    simp only [Bool.not_true, Bool.false_eq_true, if_false] at h
    cases ha1 : attemptPopups prof o1 with
    | accepted v =>
      rw [ha1] at h
      obtain ⟨ps, rfl⟩ := attemptPopups_accepted _ _ _ ha1
      exact Or.inr (Or.inl ⟨ps, h⟩)
    | aborted =>
      rw [ha1] at h
      exact Or.inr (Or.inr h)
    | retry =>
      rw [ha1] at h
      cases ha2 : attemptPopups prof o2 with
      | accepted v =>
        rw [ha2] at h
        obtain ⟨ps, rfl⟩ := attemptPopups_accepted _ _ _ ha2
        exact Or.inr (Or.inl ⟨ps, h⟩)
      | aborted =>
        rw [ha2] at h
        exact Or.inr (Or.inr h)
      | retry =>
        rw [ha2] at h
        exact Or.inr (Or.inr h)
  · rw [Bool.not_eq_true] at ht
    rw [ht] at h
    simp only [Bool.not_false, if_true] at h
    injection h with h
    exact Or.inl h.symm

/-! ## C3 and C8: dedup keys and TTL bounds of every returned batch -/

lemma filter_pkey_nodup (prof : StressProfile) (ps : List RawPopup) :
    ((filter_valid_popups prof ps []).map pkey).Nodup := by
  have h1 := (filter_valid_popups_nodup prof ps []).1
  have h2 : ((filter_valid_popups prof ps []).map fun p => lowerStr p.message)
      = ((filter_valid_popups prof ps []).map pkey).map fun k => lowerStr k.2 := by
    rw [List.map_map]
    rfl
  rw [h2] at h1
  exact h1.of_map

/-- C3 (corrected, amended form).  In every list `generate_popups`
actually returns, no two popups share the exact, case-sensitive
`(type, message)` key — this is the key both call sites put in `seen`.
The claimed case-insensitive `(type, lowercased message)` uniqueness fails
(see the counterexample): the backend loop deduplicates by lowercased
message alone while the fallback filler skips exact keys, so a backend
popup that is a case variant of a fallback template can co-occur with the
template itself. -/
theorem generate_popups_exact_keys_nodup :
    ∀ (fuel : Nat) (prof : StressProfile) (sig : List String)
      (o1 o2 : AttemptOutcome) (l : List Popup),
      (generate_popups fuel prof sig o1 o2).result = some l →
      (l.map pkey).Nodup := by
  intro fuel prof sig o1 o2 l h
  rcases generate_popups_result_cases fuel prof sig o1 o2 l h with rfl | ⟨ps, hens⟩ | hfb
  · simp
  · exact (ensure_minimum_popups_inv _ _ _ _ _ _ (filter_pkey_nodup prof ps) hens).1
  · unfold final_fallback at hfb
    cases hfp : fallback_popups fuel 40 [] sig with
    | none => rw [hfp] at hfb; exact absurd hfb (by simp)
    | some r =>
      rw [hfp] at hfb
      injection hfb with hfb
      subst hfb
      obtain ⟨hnd, -, -⟩ := fallback_popups_inv _ _ _ _ _ hfp
      rw [List.map_take]
      exact hnd.sublist (List.take_sublist _ _)

/-- A backend candidate that is a lowercase variant of the `self_doubt`
fallback template (8 words, passes every filter). -/
def popup_case_variant : RawPopup :=
  ⟨some "self_doubt", some "you know you're not ready. so do they.", some 8000⟩

/-- 37 distinct well-formed filler candidates (5 words each). -/
def filler_raw_popup (i : Nat) : RawPopup :=
  ⟨some "panic", some ("m " ++ Nat.repr i ++ " a b c"), some 8000⟩

/-- A backend reply with 38 valid popups: 37 fillers plus the case variant
of a fallback template.  `generate_popups` then needs 2 fallback popups to
reach the minimum of 40, and emits the `pressure` and `self_doubt`
templates — the latter alongside its lowercase variant. -/
def raw_popups_c3 : List RawPopup :=
  (List.range 37).map filler_raw_popup ++ [popup_case_variant]

/-- The case-insensitive dedup keys of a batch, as claim C3 states them. -/
def keysLower (l : List Popup) : List (String × String) :=
  l.map fun p => (p.type, lowerStr p.message)

/-- C3 counterexample.  At this concrete input `generate_popups` returns a
40-popup batch in which two popups share the `(type, lowercased message)`
key `("self_doubt", "you know you're not ready. so do they.")`: the
backend's lowercase case-variant and the fallback template it shadows. -/
theorem generate_popups_lower_keys_collide :
    (decide (keysLower ((generate_popups 50 profile_distractions []
        (.content raw_popups_c3) .malformed).result.getD [])).Nodup) = false := by
  decide

/-- Witness for C3's amended theorem: the same 40-popup batch has pairwise
distinct exact `(type, message)` keys. -/
theorem generate_popups_exact_keys_nodup_witness :
    (((generate_popups 50 profile_distractions []
        (.content raw_popups_c3) .malformed).result.getD []).map pkey).Nodup := by
  cases hres : (generate_popups 50 profile_distractions []
      (.content raw_popups_c3) .malformed).result with
  | none => exact absurd hres (by decide)
  | some l =>
    exact generate_popups_exact_keys_nodup 50 profile_distractions [] _ _ l hres

/-- Decidable statement of the TTL bound of claim C8. -/
def allTtlInRange (l : List Popup) : Bool :=
  l.all fun p => decide (6000 ≤ p.ttl) && decide (p.ttl ≤ 10000)

/-- C8 (confirmed).  Every popup in a list `generate_popups` returns has
its `ttl` in the configured `[6000, 10000]` range: backend candidates are
clamped with `max(6000, min(10000, ttl))` (missing `ttl` defaults to
8000), and fallback popups carry `ttl = 8000`. -/
theorem generate_popups_ttl_in_range :
    ∀ (fuel : Nat) (prof : StressProfile) (sig : List String)
      (o1 o2 : AttemptOutcome) (l : List Popup),
      (generate_popups fuel prof sig o1 o2).result = some l →
      allTtlInRange l = true := by
  intro fuel prof sig o1 o2 l h
  suffices hb : ∀ p ∈ l, 6000 ≤ p.ttl ∧ p.ttl ≤ 10000 by
    rw [allTtlInRange, List.all_eq_true]
    intro p hp
    simp [(hb p hp).1, (hb p hp).2]
  rcases generate_popups_result_cases fuel prof sig o1 o2 l h with rfl | ⟨ps, hens⟩ | hfb
  · intro p hp
    exact absurd hp (by simp)
  · intro p hp
    rcases (ensure_minimum_popups_inv _ _ _ _ _ _
        (filter_pkey_nodup prof ps) hens).2 p hp with hmem | h8
    · exact filter_valid_popups_ttl prof ps [] p hmem
    · rw [h8]; norm_num
  · intro p hp
    unfold final_fallback at hfb
    cases hfp : fallback_popups fuel 40 [] sig with
    | none => rw [hfp] at hfb; exact absurd hfb (by simp)
    | some r =>
      rw [hfp] at hfb
      injection hfb with hfb
      subst hfb
      have h8 := (fallback_popups_inv _ _ _ _ _ hfp).2.2 p (List.take_subset _ _ hp)
      rw [h8]
      norm_num

/-- Witness for C8: the concrete 40-popup batch of the C3 scenario has
every `ttl` within `[6000, 10000]`. -/
theorem generate_popups_ttl_in_range_witness :
    allTtlInRange ((generate_popups 50 profile_distractions []
        (.content raw_popups_c3) .malformed).result.getD []) = true := by
  cases hres : (generate_popups 50 profile_distractions []
      (.content raw_popups_c3) .malformed).result with
  | none => exact absurd hres (by decide)
  | some l =>
    exact generate_popups_ttl_in_range 50 profile_distractions [] _ _ l hres

/-! ## C5 and C10: attempt accounting and the empty-profile early return -/

/-- C5 (corrected, amended form).  For every non-empty profile: at most two
backend calls are made; a parse failure (malformed JSON — the code's
`except (JSONDecodeError, ValidationError)`) on attempt 1 leads to a
second backend attempt; but ANY exception raised by the backend call
itself — transient or fatal alike, the code never inspects which — aborts
the remaining attempt (`except Exception: break`) and goes straight to
fallback after a single call.  The claim's "transient errors are retried"
is refuted by the counterexample. -/
theorem generate_popups_retry_budget :
    ∀ (fuel : Nat) (prof : StressProfile) (sig : List String) (o1 o2 : AttemptOutcome),
      prof.isTruthy = true →
      (generate_popups fuel prof sig o1 o2).calls ≤ 2
      ∧ (o1 = .malformed → (generate_popups fuel prof sig o1 o2).calls = 2)
      ∧ (isBackendErr o1 = true → (generate_popups fuel prof sig o1 o2).calls = 1) := by
  intro fuel prof sig o1 o2 ht
  refine ⟨?_, ?_, ?_⟩
  · unfold generate_popups
    rw [ht]
    simp only [Bool.not_true, Bool.false_eq_true, if_false]
    cases attemptPopups prof o1 with
    | accepted v => simp
    | aborted => simp
    | retry => cases attemptPopups prof o2 <;> simp
  · intro ho1
    subst ho1
    unfold generate_popups
    rw [ht]
    simp only [Bool.not_true, Bool.false_eq_true, if_false]
    have hm : attemptPopups prof .malformed = .retry := rfl
    rw [hm]
    cases attemptPopups prof o2 <;> simp
  · intro hbe
    cases o1 with
    | backendError b =>
      unfold generate_popups
      rw [ht]
      simp only [Bool.not_true, Bool.false_eq_true, if_false]
      have ha : attemptPopups prof (.backendError b) = .aborted := rfl
      rw [ha]
    | malformed => simp [isBackendErr] at hbe
    | content ps => simp [isBackendErr] at hbe

/-- C5 counterexample.  A transient backend error on attempt 1 does NOT
lead to a second backend attempt: exactly one backend call is made and the
code goes straight to fallback, contrary to the claim. -/
theorem transient_backend_error_not_retried :
    (generate_popups 0 profile_distractions [] (.backendError true) .malformed).calls = 1 := by
  rfl

/-- Witness for C5's amended theorem at a concrete input (malformed JSON on
attempt 1, non-empty profile). -/
theorem generate_popups_retry_budget_witness :
    (generate_popups 0 profile_distractions [] .malformed .malformed).calls ≤ 2
    ∧ (AttemptOutcome.malformed = .malformed →
        (generate_popups 0 profile_distractions [] .malformed .malformed).calls = 2)
    ∧ (isBackendErr .malformed = true →
        (generate_popups 0 profile_distractions [] .malformed .malformed).calls = 1) :=
  generate_popups_retry_budget 0 profile_distractions [] .malformed .malformed rfl

/-- C10 (confirmed).  For every falsy (empty) profile, `generate_popups`
returns the empty list immediately: zero backend calls, result `[]` — in
particular the batch minimum quota (which would demand at least
`min(40, #templates)` popups) does not hold for this return. -/
theorem generate_popups_empty_profile :
    ∀ (fuel : Nat) (prof : StressProfile) (sig : List String) (o1 o2 : AttemptOutcome),
      prof.isTruthy = false →
      generate_popups fuel prof sig o1 o2 = ⟨0, some []⟩
      ∧ ([] : List Popup).length < min 40 FALLBACK_TEMPLATES.length := by
  intro fuel prof sig o1 o2 ht
  constructor
  · unfold generate_popups
    rw [ht]
    simp
  · decide

/-- The empty profile dict. -/
def empty_profile : StressProfile := ⟨none, none, []⟩

/-- Witness for C10 at a concrete empty profile. -/
theorem generate_popups_empty_profile_witness :
    generate_popups 7 empty_profile ["panic"] (.content []) .malformed = ⟨0, some []⟩
    ∧ ([] : List Popup).length < min 40 FALLBACK_TEMPLATES.length :=
  generate_popups_empty_profile 7 empty_profile ["panic"] (.content []) .malformed rfl

/-! ## `question_generator.py` — counter-questions and slot questions -/

/-- The per-item filter of `generate_counter_questions`: normalise the
candidate, keep it when it ends with `?` and its character length is in
`[10, 200]`.  (Non-string entries are skipped by the code's `isinstance`
check and are not modelled.) -/
def valid_counter_filter (qs : List String) : List String :=
  qs.filterMap fun q =>
    let q_clean := normalizeWsStr q
    if endsWithQM q_clean.data
        && decide (10 ≤ q_clean.data.length) && decide (q_clean.data.length ≤ 200) then
      some q_clean
    else none

/-- `_extract_target`: who the emotion is aimed at. -/
def extract_target (text : String) : String :=
  let text_lower := lowerStr text
  if containsSubstr text_lower "friend" then "them"
  else if containsSubstr text_lower "parent" || containsSubstr text_lower "mom"
      || containsSubstr text_lower "dad" then "them"
  else if containsSubstr text_lower "teacher" then "them"
  else if containsSubstr text_lower "myself" || containsSubstr text_lower "i " then "yourself"
  else "them"

/-- `_generate_fallback_counter_questions`: the rule-based keyword chain;
each matched branch contributes exactly its three questions, and the
generic three are used when nothing matches. -/
def generate_fallback_counter_questions (user_text : String) : List String :=
  let text := lowerStr user_text
  let questions : List String :=
    if ["hate", "can't stand", "despise"].any (fun w => containsSubstr text w) then
      let target := extract_target user_text
      ["If you truly hated " ++ target ++ ", why haven't you cut them off completely?",
       "Can you think of even one good moment with " ++ target
         ++ " - does that fit with 'hate'?",
       "Is it actual hate, or disappointment that " ++ target
         ++ " didn't meet your expectations?"]
    else if ["can't", "cannot", "unable", "impossible"].any
        (fun w => containsSubstr text w) then
      ["Is it truly 'can't', or is it 'won't' because it's uncomfortable?",
       "What would change if you admitted you're choosing not to, rather than unable to?",
       "If someone offered you ₹10 lakh to do it, would 'can't' suddenly become 'can'?"]
    else if ["stressed", "stress", "anxious", "anxiety"].any
        (fun w => containsSubstr text w) then
      ["If the thing stressing you disappeared tomorrow, would you feel peace or just find something new to stress about?",
       "Is the stress about the situation, or about what failure would say about you?",
       "What's the actual worst-case scenario - and have you prepared for it at all?"]
    else if ["distracted", "focus", "concentrate"].any (fun w => containsSubstr text w) then
      ["Do you lose focus on everything, or just on things you find boring?",
       "If your favorite game required the same focus as studying, would you still have this problem?",
       "Is it a focus problem, or a motivation problem you're calling 'focus'?"]
    else if ["lazy", "procrastinat"].any (fun w => containsSubstr text w) then
      ["Are you lazy about everything, or just things that don't excite you?",
       "What would it mean if 'lazy' was actually 'scared of not being good enough'?",
       "If laziness is the problem, why do you have energy for things you enjoy?"]
    else if ["don't understand", "doesn't understand", "no one understands"].any
        (fun w => containsSubstr text w) then
      ["Have you explained yourself in their language, or just expected them to decode yours?",
       "Is it that they don't understand, or that they understand but disagree?",
       "What if they understand perfectly but just don't give you the response you want?"]
    else if ["pressure", "expect", "expectation"].any (fun w => containsSubstr text w) then
      ["Is the pressure from them, or from your own fear of disappointing them?",
       "If they expected nothing from you, would that feel like freedom or abandonment?",
       "What would happen if you just... didn't meet their expectations?"]
    else if ["fail", "failing", "failure"].any (fun w => containsSubstr text w) then
      ["Is failing the actual fear, or is it what people will think of you after?",
       "If no one ever found out about the failure, would it still hurt as much?",
       "What's one thing you've failed at before that turned out fine eventually?"]
    else if ["friend", "friends"].any (fun w => containsSubstr text w) then
      ["Are they actually bad friends, or just not the friends you wish they were?",
       "What would you lose if you stopped being their friend tomorrow?",
       "Is the problem them, or that you keep choosing the same type of people?"]
    else []
  if questions.isEmpty then
    ["What would it mean if the opposite of what you just said was actually true?",
     "Are you describing the situation accurately, or how it feels in this moment?",
     "What are you avoiding admitting to yourself right now?"]
  else questions

/-- The single source `generate_counter_questions` actually draws from:
the backend's valid questions when there is at least one, otherwise the
rule-based fallback (the code never tops a short backend list up from the
fallback).  `backend = none` models the backend call raising. -/
def chosen_counter_source (user_text : String) (backend : Option (List String)) :
    List String :=
  let valid := match backend with
    | some qs => valid_counter_filter qs
    | none => []
  if !valid.isEmpty then valid
  else generate_fallback_counter_questions (pyStripStr user_text)

/-- `generate_counter_questions(user_text, num_questions)` with the single
backend call abstracted: `some qs` is a parsed reply with a `questions`
list, `none` covers the call raising or the reply failing to parse
(one `except` catches everything and falls through to the rule-based
fallback). -/
def generate_counter_questions (user_text : String) (backend : Option (List String))
    (num_questions : Nat) : List String :=
  let text := pyStripStr user_text
  if text = "" then []
  else
    let valid_questions := match backend with
      | some qs => valid_counter_filter qs
      | none => []
    if !valid_questions.isEmpty then valid_questions.take num_questions
    else (generate_fallback_counter_questions text).take num_questions

/-- What one backend attempt of `generate_question` produced: `ok raw`
is a parsed reply whose `data.get("question") or ""` is `raw`; `exn`
covers the call raising or the reply failing to parse (the loop's
`except` catches everything and continues to the next attempt). -/
inductive QuestionAttempt where
  | ok (raw : String)
  | exn
deriving DecidableEq

/-- The in-loop acceptance test of `generate_question`: the normalised
question is non-empty, differs from the last asked question and passes
`is_valid_question`; otherwise the attempt yields nothing. -/
def attempt_question (a : QuestionAttempt) (last_question : String) : Option String :=
  match a with
  | .exn => none
  | .ok raw =>
    let question := normalizeWsStr raw
    if question ≠ "" && question ≠ last_question && is_valid_question question then
      some question
    else none

/-- Modelled from the spec: `FALLBACK_QUESTIONS` lives in
`app/services/fallbacks.py`, which is not under `src/`.  Per spec
section 4.7 it is a per-domain table of canned challenge templates for the
known `(domain, slot)` pairs; this model gives it exactly the pairs the
source's `_make_challenging` table covers, with non-empty placeholder
questions. -/
def FALLBACK_QUESTIONS : List ((String × String) × String) := [
  (("distractions", "phone_app"), "Which app do you open the most?"),
  (("distractions", "gaming_app"), "Which game do you play the most?"),
  (("distractions", "gaming_time"), "How long do you game each day?"),
  (("distractions", "friend_name"), "Which friend distracts you the most?"),
  (("academic_confidence", "weak_subject"), "Which subject troubles you the most?"),
  (("academic_confidence", "last_test_experience"), "How did your last test go?"),
  (("time_pressure", "study_hours_per_day"), "How many hours do you study each day?"),
  (("time_pressure", "timetable_breaker"), "What breaks your timetable?"),
  (("social_comparison", "comparison_person"), "Who do you compare yourself to?"),
  (("family_pressure", "family_member"), "Which family member pressures you?"),
  (("family_pressure", "expectation_type"), "What do they expect from you?")]

/-- The `challenges` table of `_make_challenging`, from the source. -/
def challenges : List ((String × String) × String) := [
  (("distractions", "phone_app"),
   "Which app do you keep opening even when you promise yourself you won't?"),
  (("distractions", "gaming_app"),
   "Which game steals hours from you while you tell yourself 'just one more match'?"),
  (("distractions", "gaming_time"),
   "How many hours do you actually game - not what you tell others, but the real number?"),
  (("distractions", "friend_name"),
   "Which friend do you blame for distractions when you'd probably waste time anyway without them?"),
  (("academic_confidence", "weak_subject"),
   "Which subject do you keep avoiding even though ignoring it only makes things worse?"),
  (("academic_confidence", "last_test_experience"),
   "What happened in your last test that you're still making excuses for?"),
  (("time_pressure", "study_hours_per_day"),
   "How many hours do you actually study - not 'sit with books open' but real focused work?"),
  (("time_pressure", "timetable_breaker"),
   "What keeps destroying your timetable that you could actually control if you wanted to?"),
  (("social_comparison", "comparison_person"),
   "Who do you keep comparing yourself to even though it only makes you feel worse?"),
  (("family_pressure", "family_member"),
   "Whose opinion are you most afraid of disappointing?"),
  (("family_pressure", "expectation_type"),
   "What expectation feels impossible - and have you actually tried or just assumed you'd fail?")]

/-- `_make_challenging(question, domain, slot)`:
`challenges.get((domain, slot), question)`. -/
def make_challenging (question domain slot : String) : String :=
  match assocLookup challenges (domain, slot) with
  | some c => c
  | none => question

/-- `generate_question(domain, slot, excerpt, context)` with the two
backend attempts abstracted.  `last_question_meta` is
`context["meta"]["last_question"] or ""` before the `.strip()`;
`user_text` and `excerpt` only feed the prompt payload. -/
def generate_question (domain slot : String) (_excerpt : Option String)
    (last_question_meta : String) (_user_text : String)
    (a1 a2 : QuestionAttempt) : String :=
  let last_question := pyStripStr last_question_meta
  match attempt_question a1 last_question with
  | some q => q
  | none =>
    match attempt_question a2 last_question with
    | some q => q
    | none =>
      match assocLookup FALLBACK_QUESTIONS (domain, slot) with
      | some fallback =>
        if fallback ≠ "" then make_challenging fallback domain slot
        else "What are you avoiding by not answering this directly?"
      | none => "What are you avoiding by not answering this directly?"

/-! ## C6: a short backend batch is not topped up from the fallback -/

/-- C6 (corrected, amended form).  For every non-empty user text,
`generate_counter_questions` returns fewer than `count` questions only
when the single source it selected — the backend's valid questions when
there is at least one, otherwise the rule-based fallback — cannot produce
`count`.  The claim's stronger reading ("backend and fallback together")
fails: a backend reply with one valid question is returned as-is and never
topped up from the fallback (see the counterexample). -/
theorem counter_questions_shortfall_source_exhausted :
    ∀ (user_text : String) (backend : Option (List String)) (n : Nat),
      pyStripStr user_text ≠ "" →
      (generate_counter_questions user_text backend n).length < n →
      (generate_counter_questions user_text backend n).length
        = (chosen_counter_source user_text backend).length := by
  intro t b n hne hlt
  cases b with
  | none =>
    simp only [generate_counter_questions, chosen_counter_source, if_neg hne,
      List.isEmpty_nil, Bool.not_true, Bool.false_eq_true, if_false] at hlt ⊢
    rw [List.length_take] at hlt ⊢
    omega
  | some qs =>
    simp only [generate_counter_questions, chosen_counter_source, if_neg hne] at hlt ⊢
    by_cases hv : (valid_counter_filter qs).isEmpty
    · simp only [hv, Bool.not_true, Bool.false_eq_true, if_false] at hlt ⊢
      rw [List.length_take] at hlt ⊢
      omega
    · rw [Bool.not_eq_true] at hv
      simp only [hv, Bool.not_false, if_true] at hlt ⊢
      rw [List.length_take] at hlt ⊢
      omega

/-- C6 counterexample.  With user text "I hate my friends", a backend
reply holding exactly one valid question, and `count = 3`, the result has
just that one question although the rule-based fallback alone had three
further valid questions available — so a shortfall does not mean both
sources were exhausted. -/
theorem counter_questions_shortfall_despite_fallback :
    (generate_counter_questions "I hate my friends"
        (some ["Is that really hate or something else?"]) 3).length = 1
    ∧ (1 : Nat) < 3
    ∧ (generate_fallback_counter_questions "I hate my friends").length = 3 := by
  exact ⟨by decide, by decide, by decide⟩

/-- Witness for C6's amended theorem: text "x", backend raising, count 5 —
the fallback source yields its three generic questions and the shortfall
equals the source's full size. -/
theorem counter_questions_shortfall_witness :
    (generate_counter_questions "x" none 5).length
      = (chosen_counter_source "x" none).length :=
  counter_questions_shortfall_source_exhausted "x" none 5 (by decide) (by decide)

/-! ## C7: the slot-question fallback chain -/

lemma attempt_question_some (a : QuestionAttempt) (lq q : String)
    (h : attempt_question a lq = some q) : q ≠ "" := by
  cases a with
  | exn => exact absurd h (by simp [attempt_question])
  | ok raw =>
    unfold attempt_question at h
    dsimp only at h
    split at h
    next hcond =>
      injection h with h
      subst h
      simp only [Bool.and_eq_true] at hcond
      exact of_decide_eq_true hcond.1.1
    next => exact absurd h (by simp)

lemma make_challenging_ne (fb domain slot : String) (hfb : fb ≠ "") :
    make_challenging fb domain slot ≠ "" := by
  unfold make_challenging
  cases h : assocLookup challenges (domain, slot) with
  | none => exact hfb
  | some c =>
    dsimp only
    intro hc0
    rcases List.mem_map.mp (assocLookup_mem _ _ _ h) with ⟨kv, hkv, hc⟩
    have hall := List.all_eq_true.mp
      (by decide : challenges.all (fun kv => !(kv.2 == "")) = true) kv hkv
    rw [hc, hc0] at hall
    simp at hall

/-- C7 (corrected, amended form).  `generate_question` never returns an
empty (or missing) question; and when both backend attempts fail and the
`(domain, slot)` pair has no entry in the fallback table, it returns the
FIXED generic question "What are you avoiding by not answering this
directly?" — which, contrary to the claim, does not embed the slot's
human-readable name (see the counterexample). -/
theorem generate_question_nonempty_and_generic_fallback :
    ∀ (domain slot : String) (excerpt : Option String) (lq ut : String)
      (a1 a2 : QuestionAttempt),
      generate_question domain slot excerpt lq ut a1 a2 ≠ ""
      ∧ (attempt_question a1 (pyStripStr lq) = none →
          attempt_question a2 (pyStripStr lq) = none →
          assocLookup FALLBACK_QUESTIONS (domain, slot) = none →
          generate_question domain slot excerpt lq ut a1 a2
            = "What are you avoiding by not answering this directly?") := by
  intro domain slot excerpt lq ut a1 a2
  constructor
  · cases h1 : attempt_question a1 (pyStripStr lq) with
    | some q =>
      have he : generate_question domain slot excerpt lq ut a1 a2 = q := by
        simp only [generate_question, h1]
      rw [he]
      exact attempt_question_some _ _ _ h1
    | none =>
      cases h2 : attempt_question a2 (pyStripStr lq) with
      | some q =>
        have he : generate_question domain slot excerpt lq ut a1 a2 = q := by
          simp only [generate_question, h1, h2]
        rw [he]
        exact attempt_question_some _ _ _ h2
      | none =>
        cases h3 : assocLookup FALLBACK_QUESTIONS (domain, slot) with
        | some fb =>
          by_cases hfb : fb ≠ ""
          · have he : generate_question domain slot excerpt lq ut a1 a2
                = make_challenging fb domain slot := by
              simp only [generate_question, h1, h2, h3, if_pos hfb]
            rw [he]
            exact make_challenging_ne _ _ _ hfb
          · have he : generate_question domain slot excerpt lq ut a1 a2
                = "What are you avoiding by not answering this directly?" := by
              simp only [generate_question, h1, h2, h3, if_neg hfb]
            rw [he]
            decide
        | none =>
          have he : generate_question domain slot excerpt lq ut a1 a2
              = "What are you avoiding by not answering this directly?" := by
            simp only [generate_question, h1, h2, h3]
          rw [he]
          decide
  · intro h1 h2 h3
    simp only [generate_question, h1, h2, h3]

/-- C7 counterexample.  For a `(domain, slot)` with no fallback-table
entry and both attempts failing, the returned question is the fixed
generic challenge — it does not contain the slot's name ("mystery"). -/
theorem generate_question_generic_lacks_slot_name :
    generate_question "nosuch" "mystery_slot" none "" "" .exn .exn
      = "What are you avoiding by not answering this directly?"
    ∧ containsSubstr (generate_question "nosuch" "mystery_slot" none "" "" .exn .exn)
        "mystery" = false := by
  exact ⟨by decide, by decide⟩

/-! ## C9: the lexical-overlap contract -/

/-- C9 (confirmed, against the spec-modelled overlap validator — the
module that implements it is not under `src/`).  The overlap check accepts
unconditionally when the user text yields no anchors; when it yields at
least 2 anchors, acceptance requires at least 2 of them to occur as
substrings of the lowercased candidate; and for the user text "I hate my
friends and feel stressed", a candidate containing none of
hate/friends/stressed is rejected. -/
theorem requiresOverlap_contract :
    (∀ user cand : String, extractAnchors user = [] →
        requiresOverlap cand user = true)
    ∧ (∀ user cand : String, 2 ≤ (extractAnchors user).length →
        requiresOverlap cand user = true →
        2 ≤ ((extractAnchors user).filter fun a =>
          containsSubstr (lowerStr cand) a).length)
    ∧ requiresOverlap "You are behind everyone else again."
        "I hate my friends and feel stressed" = false := by
  refine ⟨?_, ?_, by decide⟩
  · intro user cand h
    simp [requiresOverlap, h]
  · intro user cand h2 hacc
    unfold requiresOverlap at hacc
    dsimp only at hacc
    have hne : (extractAnchors user).isEmpty = false := by
      cases hE : extractAnchors user with
      | nil => rw [hE] at h2; simp at h2
      | cons a l => rfl
    simp only [hne, Bool.false_eq_true, if_false] at hacc
    simp only [Bool.and_eq_true] at hacc
    obtain ⟨hA, -⟩ := hacc
    rw [if_pos h2] at hA
    exact of_decide_eq_true hA
